import Mathlib

/-
Verification of the webauth session/credential core.

The two server files (src/index.js and the session-store variant) are a
small Express application: registration, login, a session-gated user
listing, and (in the store variant) logout.  The handlers are embedded
below as pure functions over explicit request/session/store state; the
outcomes of the external asynchronous collaborators (the users model and
the bcrypt library) are passed in as parameters, so every theorem is
quantified over their behaviour.
-/

set_option autoImplicit false

namespace WebAuth

/-- A user record as stored by the users model: a username and the
password column, which after registration holds the bcrypt hash. -/
structure User where
  username : String
  password : String
deriving DecidableEq, Repr

/-- A JavaScript value that the handlers assign to req.session.username:
the login handler assigns the username string, while the
session-on-register variant assigns the entire saved record. -/
inductive JsVal where
  | str : String → JsVal
  | record : User → JsVal
deriving DecidableEq, Repr

/-- JavaScript truthiness of the values a session username field can hold:
the empty string is falsy, a non-empty string and any object are truthy. -/
def JsVal.truthy : JsVal → Bool
  | .str s => !(s == "")
  | .record _ => true

/-- The session data the handlers use: only the username field of
req.session is ever read or written. -/
structure SessionData where
  username : Option JsVal
deriving DecidableEq, Repr

/-- Truthiness of the guard expression req.session && req.session.username
used by the restricted middleware: the session object must be present and
its username field must be a truthy value. -/
def sessionTruthy : Option SessionData → Bool
  | none => false
  | some sd =>
    match sd.username with
    | none => false
    | some v => v.truthy

/-- The response bodies the handlers produce, separated by the Express
call that produced them, so that a user-data body is distinguishable from
every message, error, or text body. -/
inductive RBody where
  | jsonMsg : String → RBody
  | jsonUsers : List User → RBody
  | jsonUser : User → RBody
  | jsonErr : String → RBody
  | rawErr : String → RBody
  | text : String → RBody
  | empty : RBody
deriving DecidableEq, Repr

/-- An HTTP response: status code and body.  Express defaults the status
to 200 when the handler does not set one (res.json, res.send, res.end). -/
structure Response where
  status : Nat
  body : RBody
deriving DecidableEq, Repr

/-- The cookie sub-object of the session configuration: in the source it
holds exactly the keys maxAge and secure. -/
structure CookieConfig where
  maxAge : Nat
  secure : Bool
deriving DecidableEq, Repr

/-- The knex-backed session store configuration of the store variant. -/
structure StoreConfig where
  tablename : String
  sidfieldname : String
  createtable : Bool
  clearInterval : Nat
deriving DecidableEq, Repr

/-- The sessionConfig object of src/index.js.  Note that httpOnly sits at
the top level of the configuration object in the source, next to resave
and saveUninitialized, not inside the cookie sub-object. -/
structure SessionConfig where
  name : String
  secret : String
  cookie : CookieConfig
  httpOnly : Bool
  resave : Bool
  saveUninitialized : Bool
deriving DecidableEq, Repr

/-- The sessionConfig object of the store variant: the same keys plus the
knex store. -/
structure SessionConfig2 where
  name : String
  secret : String
  cookie : CookieConfig
  httpOnly : Bool
  resave : Bool
  saveUninitialized : Bool
  store : StoreConfig
deriving DecidableEq, Repr

/-- sessionConfig as written in src/index.js lines 13 to 23. -/
def sessionConfig : SessionConfig :=
  { name := "monkey"
    secret := "keep it secret, keep it safe!"
    cookie := { maxAge := 1000 * 60 * 15, secure := false }
    httpOnly := true
    resave := false
    saveUninitialized := false }

/-- sessionConfig as written in the store variant, lines 20 to 41. -/
def sessionConfig2 : SessionConfig2 :=
  { name := "monkey"
    secret := "keep it secret, keep it safe!"
    cookie := { maxAge := 1000 * 60 * 15, secure := false }
    httpOnly := true
    resave := false
    saveUninitialized := false
    store :=
      { tablename := "sessions"
        sidfieldname := "sid"
        createtable := true
        clearInterval := 1000 * 60 * 60 } }

/-- Modelled from the spec: the User Store add operation.  The users
model file (users/users-model.js) is not under src; per the spec the
store persists the record, its uniqueness constraint on username is the
sole guard against duplicates (a duplicate registration must fail with a
store error), and the stored record is returned to the caller. -/
def Users.add (store : List User) (u : User) :
    Except String (User × List User) :=
  if store.any (fun v => v.username == u.username) then
    .error "users.username unique constraint violation"
  else
    .ok (u, store ++ [u])

/-- The restricted middleware (both variants): when
req.session && req.session.username is truthy it calls next, returning
none here; otherwise it short-circuits with status 401 and the message
body, returned as some response. -/
def restricted (session : Option SessionData) : Option Response :=
  if sessionTruthy session then none
  else some ⟨401, .jsonMsg "You shall not pass!"⟩

/-- The protected GET /api/users handler body: on a resolved find it
sends res.json(users); on a rejected find it sends res.send(err), which
keeps the default 200 status.  The find outcome of the external users
model is the parameter. -/
def usersHandler (findResult : Except String (List User)) : Response :=
  match findResult with
  | .ok users => ⟨200, .jsonUsers users⟩
  | .error e => ⟨200, .rawErr e⟩

/-- The full GET /api/users route: the restricted middleware runs first;
only when it calls next does the protected handler run. -/
def apiUsers (session : Option SessionData)
    (findResult : Except String (List User)) : Response :=
  match restricted session with
  | some resp => resp
  | none => usersHandler findResult

/-- Outcome of the login handler: the response and the session left on
the request afterwards. -/
structure LoginOutcome where
  response : Response
  sessionAfter : SessionData
deriving DecidableEq, Repr

/-- The POST /api/login handler (identical in both variants).  The find
outcome of Users.findBy().first() and the bcrypt compareSync function are
parameters.  When the user is found and the password verifies, the
username string is written to the session and a welcome message is sent;
when the user is absent or verification fails, the same 401 response is
sent and the session is untouched; a rejected find yields 500 with the
raw error. -/
def loginHandler (compareSync : String → String → Bool)
    (password : String)
    (findResult : Except String (Option User))
    (session : SessionData) : LoginOutcome :=
  match findResult with
  | .error e => ⟨⟨500, .jsonErr e⟩, session⟩
  | .ok userOpt =>
    match userOpt with
    | some user =>
      if compareSync password user.password then
        ⟨⟨200, .jsonMsg ("Welcome " ++ user.username ++ "!, have a cookie...")⟩,
          ⟨some (.str user.username)⟩⟩
      else
        ⟨⟨401, .jsonMsg "Invalid Credentials"⟩, session⟩
    | none => ⟨⟨401, .jsonMsg "Invalid Credentials"⟩, session⟩

/-- Outcome of the src/index.js register handler: the response, the user
store afterwards, and the list of plaintexts the bcrypt hasher was
invoked on during the request. -/
structure RegisterOutcome where
  response : Response
  store : List User
  hashCalls : List String
deriving DecidableEq, Repr

/-- The POST /api/register handler of src/index.js: hashes the supplied
password unconditionally (no validation precedes the hashSync call),
overwrites the password field with the hash, and persists via Users.add;
a resolved add sends 201 with the saved record, a rejected add sends 500
with the raw error. -/
def registerHandler (hashSync : String → String)
    (body : User) (store : List User) : RegisterOutcome :=
  let hash := hashSync body.password
  let user : User := ⟨body.username, hash⟩
  match Users.add store user with
  | .ok (saved, store2) => ⟨⟨201, .jsonUser saved⟩, store2, [body.password]⟩
  | .error e => ⟨⟨500, .jsonErr e⟩, store, [body.password]⟩

/-- Outcome of the store-variant register handler: additionally carries
the session left on the request. -/
structure Register2Outcome where
  response : Response
  store : List User
  hashCalls : List String
  sessionAfter : SessionData
deriving DecidableEq, Repr

/-- The POST /api/register handler of the store variant: as in
src/index.js, but on a resolved add it first executes
req.session.username = saved, assigning the entire saved record to the
username field of the session, before sending the 201 response. -/
def registerHandler2 (hashSync : String → String)
    (body : User) (store : List User) (session : SessionData) :
    Register2Outcome :=
  let hash := hashSync body.password
  let user : User := ⟨body.username, hash⟩
  match Users.add store user with
  | .ok (saved, store2) =>
      ⟨⟨201, .jsonUser saved⟩, store2, [body.password], ⟨some (.record saved)⟩⟩
  | .error e => ⟨⟨500, .jsonErr e⟩, store, [body.password], session⟩

/-- Outcome of the logout handler: the response and the session left
afterwards. -/
structure LogoutOutcome where
  response : Response
  sessionAfter : Option SessionData
deriving DecidableEq, Repr

/-- The GET /api/logout handler of the store variant: when a session is
present it is destroyed; the destroy callback receives the session-store
error, if any, as the parameter here.  A failed destroy sends the
checkout text, a successful destroy sends the farewell text, and an
absent session ends the response with an empty 200. -/
def logoutHandler (session : Option SessionData)
    (destroyError : Option String) : LogoutOutcome :=
  match session with
  | some sd =>
    match destroyError with
    | some _ =>
        ⟨⟨200, .text "You can checkout any time you like, but you can never leave..."⟩,
          some sd⟩
    | none => ⟨⟨200, .text "Bye! Thanks for plaing!"⟩, none⟩
  | none => ⟨⟨200, .empty⟩, none⟩

/-- C1: a GET /api/users request whose session evidence is absent or
invalid (no session, or session without a truthy username) gets the 401
gate response, independently of the users-model outcome, and the body is
never a user listing; a request with valid session evidence is passed
through to the handler unchanged. -/
theorem users_route_gate_C1 (session : Option SessionData)
    (findResult : Except String (List User)) :
    (sessionTruthy session = false →
      apiUsers session findResult = ⟨401, .jsonMsg "You shall not pass!"⟩ ∧
      ∀ users, (apiUsers session findResult).body ≠ .jsonUsers users) ∧
    (sessionTruthy session = true →
      apiUsers session findResult = usersHandler findResult) := by
  unfold apiUsers restricted
  constructor
  · intro h
    rw [h]
    simp
  · intro h
    rw [h]
    rfl

/-- Witness for C1: a sessionless request is answered 401 by the gate. -/
theorem users_route_gate_C1_witness :
    apiUsers none (.ok [⟨"alice", "hash"⟩]) =
      ⟨401, .jsonMsg "You shall not pass!"⟩ :=
  ((users_route_gate_C1 none (.ok [⟨"alice", "hash"⟩])).1 rfl).1

/-- C2: a login whose lookup finds no user, and a login whose password
verification fails, produce the identical 401 response with the one
generic message, revealing nothing about which check failed. -/
theorem login_generic_unauthorized_C2
    (compareSync : String → String → Bool) (password : String)
    (findResult : Except String (Option User)) (session : SessionData)
    (h : findResult = .ok none ∨
      ∃ user, findResult = .ok (some user) ∧
        compareSync password user.password = false) :
    (loginHandler compareSync password findResult session).response =
      ⟨401, .jsonMsg "Invalid Credentials"⟩ := by
  rcases h with h | ⟨user, h, hc⟩ <;> subst h
  · rfl
  · simp [loginHandler, hc]

/-- Witness for C2: a login against an empty lookup is answered with the
generic 401 response. -/
theorem login_generic_unauthorized_C2_witness :
    (loginHandler (fun _ _ => false) "pw" (.ok none) ⟨none⟩).response =
      ⟨401, .jsonMsg "Invalid Credentials"⟩ :=
  login_generic_unauthorized_C2 (fun _ _ => false) "pw" (.ok none) ⟨none⟩
    (Or.inl rfl)

/-- C3 counterexample: with the user store empty, so that the user named
by the session no longer exists, a request bearing only that orphaned
session is still authenticated by the gate: the route returns the 200
user listing, not a rejection. -/
theorem orphan_session_authenticates_C3 :
    apiUsers (some ⟨some (.str "alice")⟩) (.ok []) = ⟨200, .jsonUsers []⟩ := by
  decide

/-- C3 amended: the restricted gate consults only the session evidence
and never the user store: any session with a truthy username field passes
the gate whatever the store holds, so a session referencing a deleted
user does not fail closed. -/
theorem gate_ignores_user_store_C3 (sd : SessionData)
    (h : sessionTruthy (some sd) = true)
    (findResult : Except String (List User)) :
    apiUsers (some sd) findResult = usersHandler findResult := by
  unfold apiUsers restricted
  rw [h]
  rfl

/-- Witness for the amended C3: a session naming an absent user passes
the gate over an empty store. -/
theorem gate_ignores_user_store_C3_witness :
    apiUsers (some ⟨some (.str "ghost")⟩) (.ok []) = usersHandler (.ok []) :=
  gate_ignores_user_store_C3 ⟨some (.str "ghost")⟩ rfl (.ok [])

/-- C4: a registration whose username is not yet taken succeeds with 201
and a body equal to the record the store persisted, whose password field
holds the hash; and every store failure during add, duplicate conflicts
included, is answered 500. -/
theorem register_contract_C4 (hashSync : String → String)
    (body : User) (store : List User) :
    (store.any (fun v => v.username == body.username) = false →
      (registerHandler hashSync body store).response =
        ⟨201, .jsonUser ⟨body.username, hashSync body.password⟩⟩ ∧
      (registerHandler hashSync body store).store =
        store ++ [⟨body.username, hashSync body.password⟩]) ∧
    (∀ e, Users.add store ⟨body.username, hashSync body.password⟩ = .error e →
      (registerHandler hashSync body store).response.status = 500) := by
  constructor
  · intro h
    simp [registerHandler, Users.add, h]
  · intro e he
    simp [registerHandler, he]

/-- Witness for C4: a fresh registration on an empty store stores and
returns the hashed record with status 201. -/
theorem register_contract_C4_witness :
    (registerHandler (fun s => "h" ++ s) ⟨"alice", "secret123"⟩ []).response =
      ⟨201, .jsonUser ⟨"alice", "hsecret123"⟩⟩ :=
  ((register_contract_C4 (fun s => "h" ++ s) ⟨"alice", "secret123"⟩ []).1
    (by decide)).1

/-- C5: logout destroys a present session and reports the farewell; an
absent session is not an error, the response is an empty success, so two
consecutive logouts both succeed; only a session-store destroy error
produces the failure text, and a post-logout protected request is
rejected 401. -/
theorem logout_contract_C5 (session : Option SessionData)
    (sd : SessionData) (e : String) :
    logoutHandler (some sd) none =
      ⟨⟨200, .text "Bye! Thanks for plaing!"⟩, none⟩ ∧
    logoutHandler none none = ⟨⟨200, .empty⟩, none⟩ ∧
    (logoutHandler (some sd) (some e)).response =
      ⟨200, .text "You can checkout any time you like, but you can never leave..."⟩ ∧
    (logoutHandler (logoutHandler session none).sessionAfter none).response.status
        = 200 ∧
    (logoutHandler (logoutHandler session none).sessionAfter none).response.body ≠
      .text "You can checkout any time you like, but you can never leave..." ∧
    ∀ findResult,
      apiUsers (logoutHandler (some sd) none).sessionAfter findResult =
        ⟨401, .jsonMsg "You shall not pass!"⟩ := by
  refine ⟨rfl, rfl, rfl, ?_, ?_, ?_⟩
  · cases session <;> rfl
  · cases session <;> simp [logoutHandler]
  · intro findResult
    rfl

/-- C6 counterexample: after a successful registration in the
session-on-register variant, the username field of the caller's session
holds the entire saved record, password hash included, and not the
username string, so the session does not identify the new user by
username. -/
theorem register_session_record_C6 :
    (registerHandler2 (fun s => "h" ++ s) ⟨"alice", "secret123"⟩ [] ⟨none⟩).sessionAfter =
      ⟨some (.record ⟨"alice", "hsecret123"⟩)⟩ ∧
    (registerHandler2 (fun s => "h" ++ s) ⟨"alice", "secret123"⟩ [] ⟨none⟩).sessionAfter ≠
      ⟨some (.str "alice")⟩ := by
  decide

/-- C6 amended: every successful registration in the session-on-register
variant sends 201 with the saved record and attaches session evidence to
the caller's context, but what it assigns to the session username field
is the entire saved record, not the username string; the resulting
session is truthy, so the gate accepts it. -/
theorem register_session_on_register_C6 (hashSync : String → String)
    (body : User) (store : List User) (session : SessionData)
    (h : store.any (fun v => v.username == body.username) = false) :
    (registerHandler2 hashSync body store session).response =
      ⟨201, .jsonUser ⟨body.username, hashSync body.password⟩⟩ ∧
    (registerHandler2 hashSync body store session).sessionAfter =
      ⟨some (.record ⟨body.username, hashSync body.password⟩)⟩ ∧
    sessionTruthy (some (registerHandler2 hashSync body store session).sessionAfter)
      = true := by
  simp [registerHandler2, Users.add, h, sessionTruthy, JsVal.truthy]

/-- Witness for the amended C6: a fresh registration attaches a truthy
record-valued session and answers 201. -/
theorem register_session_on_register_C6_witness :
    (registerHandler2 (fun s => "h" ++ s) ⟨"bob", "pw"⟩ [] ⟨none⟩).response =
      ⟨201, .jsonUser ⟨"bob", "hpw"⟩⟩ :=
  (register_session_on_register_C6 (fun s => "h" ++ s) ⟨"bob", "pw"⟩ [] ⟨none⟩
    (by decide)).1

/-- C7: both session configurations set httpOnly true, a cookie max-age
of 900000 milliseconds, resave false and saveUninitialized false. -/
theorem session_config_C7 :
    sessionConfig.httpOnly = true ∧
    sessionConfig.cookie.maxAge = 900000 ∧
    sessionConfig.resave = false ∧
    sessionConfig.saveUninitialized = false ∧
    sessionConfig2.httpOnly = true ∧
    sessionConfig2.cookie.maxAge = 900000 ∧
    sessionConfig2.resave = false ∧
    sessionConfig2.saveUninitialized = false := by
  decide

/-- C8 counterexample: a registration with an empty password is not
rejected: the hasher is invoked on the empty plaintext and the request
succeeds with 201, storing a credential hashed from the empty string. -/
theorem empty_password_hashed_C8 :
    (registerHandler (fun s => "h" ++ s) ⟨"bob", ""⟩ []).hashCalls = [""] ∧
    (registerHandler (fun s => "h" ++ s) ⟨"bob", ""⟩ []).response.status = 201 := by
  decide

/-- C8 amended: the register handler performs no validation before
hashing: on every request it invokes the hasher exactly once, on the raw
supplied password, empty or not. -/
theorem register_always_hashes_C8 (hashSync : String → String)
    (body : User) (store : List User) :
    (registerHandler hashSync body store).hashCalls = [body.password] := by
  simp only [registerHandler]
  split <;> rfl

/-- C9: a login answered 401 leaves the caller's session exactly as it
was: no field is written on the failure path. -/
theorem failed_login_frame_C9
    (compareSync : String → String → Bool) (password : String)
    (findResult : Except String (Option User)) (session : SessionData)
    (h : (loginHandler compareSync password findResult session).response.status
      = 401) :
    (loginHandler compareSync password findResult session).sessionAfter
      = session := by
  unfold loginHandler at h ⊢
  cases findResult with
  | error e => simp at h
  | ok userOpt =>
    cases userOpt with
    | none => rfl
    | some user =>
      by_cases hc : compareSync password user.password
      · simp [hc] at h
      · simp [hc]

/-- Witness for C9: a failed login leaves an authenticated session
untouched. -/
theorem failed_login_frame_C9_witness :
    (loginHandler (fun _ _ => false) "x" (.ok none)
        ⟨some (.str "alice")⟩).sessionAfter = ⟨some (.str "alice")⟩ :=
  failed_login_frame_C9 (fun _ _ => false) "x" (.ok none)
    ⟨some (.str "alice")⟩ rfl

/-- C10: when the users-model find fails on an authenticated GET
/api/users request, the handler sends the raw error value with the
default 200 status, not an error status. -/
theorem users_error_sent_raw_C10 (session : Option SessionData) (e : String)
    (h : sessionTruthy session = true) :
    apiUsers session (.error e) = ⟨200, .rawErr e⟩ := by
  unfold apiUsers restricted
  rw [h]
  rfl

/-- Witness for C10: an authenticated request over a failing store is
answered 200 with the raw error. -/
theorem users_error_sent_raw_C10_witness :
    apiUsers (some ⟨some (.str "alice")⟩) (.error "db down") =
      ⟨200, .rawErr "db down"⟩ :=
  users_error_sent_raw_C10 (some ⟨some (.str "alice")⟩) "db down" rfl

end WebAuth
